import Mathlib

/-!
Shallow embedding of the auto-follow scroll controller of the
beth-llm-chat-gui repository.

The embedded code comes from:
  * `src/utils/scrollUtils.js` — the pure scroll helpers
    (`isAtBottom`, `getScrollPositionState`, `getScrollMetrics`, `debounce`);
  * `src/hooks/useAutoScroll.js` — the controller hook
    (`throttledStateUpdate`, `updateScrollPosition`, `debouncedScrollHandler`,
    `handleScroll`, `enableAutoScroll`, `disableAutoScroll`,
    `resetAutoScrollState`, `autoScrollToBottom`, `startContinuousScroll`,
    `stopContinuousScroll`, `clearScrollTimeout`);
  * `src/types/autoScroll.js` — the configuration constants;
  * `src/components/chat/MessageList.jsx` — the integration shell
    (conversation reset, stream-start handling, content-append handling).

Modelling conventions:
  * Pixel quantities (`scrollTop`, `scrollHeight`, `clientHeight`) are `Int`,
    matching JavaScript number semantics for the integer-valued DOM metrics.
  * Wall-clock time (`Date.now()`) is a `Nat` parameter `now`; the mutable
    `lastStateUpdate.current` ref is a state field.  JavaScript computes
    `now - lastStateUpdate > 8` where a negative difference compares false;
    `Nat` truncated subtraction yields `0 > 8 = false` in the same cases.
  * Mutable refs of the hook become fields of `AutoScrollState`.  A live
    timer/frame handle (`scrollTimeoutRef.current ≠ null`,
    `scrollIntervalRef.current ≠ null`) is modelled as a `Bool` flag.
  * The debounce wrapper produced by `debounce(fn, delay)` keeps at most one
    pending invocation (each call clears the previously scheduled one); the
    pending event is the `pendingDebounce : Option ScrollMetrics` field and
    `flushDebounce` models the timer firing.
  * Issuing a "scroll to bottom" instruction against the viewport
    (`element.scrollTo({top: scrollHeight, ...})`) is the `Bool` component of
    the `AutoScrollState × Bool` results: `true` means one instruction was
    issued by that call.
  * `scrollContainerRef.current` being attached is the `hasContainer : Bool`
    parameter of the operations that read it.
-/

/-- `SCROLL_POSITION` enum from `src/types/autoScroll.js`. -/
inductive ScrollPosition where
  | at_bottom
  | scrolled_up
  | scrolling_down
deriving DecidableEq, Repr

/-- The three raw viewport numbers returned by `getScrollMetrics`
(`src/utils/scrollUtils.js`). -/
structure ScrollMetrics where
  scrollTop : Int
  scrollHeight : Int
  clientHeight : Int
deriving DecidableEq, Repr

/-- `AUTO_SCROLL_CONFIG.SCROLL_THRESHOLD` from `src/types/autoScroll.js`:
pixels from the bottom within which the viewport counts as "at bottom". -/
def SCROLL_THRESHOLD : Int := 50

/-- `AUTO_SCROLL_CONFIG.DEBOUNCE_DELAY` from `src/types/autoScroll.js`. -/
def DEBOUNCE_DELAY : Nat := 8

/-- `AUTO_SCROLL_CONFIG.ANIMATION_DURATION` from `src/types/autoScroll.js`. -/
def ANIMATION_DURATION : Nat := 300

/-- The literal `5` of `useAutoScroll.handleScroll`
("Lower threshold for immediate detection"). -/
def immediateScrollThreshold : Int := 5

/-- The literal `10` of `useAutoScroll.debouncedScrollHandler`
("Minimum scroll distance to consider intentional"). -/
def debouncedScrollThreshold : Int := 10

/-- The literal `8` of `useAutoScroll.throttledStateUpdate`
("Reduced from 16ms to 8ms"). -/
def throttleWindowMs : Nat := 8

/-- The mutable state of one `useAutoScroll` controller instance:
the three React state variables `autoScrollEnabled`, `userHasScrolledUp`,
`scrollPosition`, plus the refs `lastScrollTop`, `lastStateUpdate`,
`isAutoScrolling`, `isProcessingScroll`, the timer/frame handles, and the
pending event of the debounce wrapper.

The frame loop needs two separate facts because the source mixes timer and
animation-frame APIs: `scrollIntervalRunning` is "`scrollIntervalRef.current`
is non-null" (the ref holds a `requestAnimationFrame` id), while
`frameScheduled` is "a `scrollFrame` callback is actually pending with the
host scheduler".  `cancelAnimationFrame` clears both; `clearInterval` (as
used by `clearScrollTimeout`) has no effect on an animation-frame id, so it
nulls the ref but leaves the scheduled frame pending.  (`frameScheduled`
tracks at most one pending callback, which covers every execution the
properties below quantify over.) -/
structure AutoScrollState where
  autoScrollEnabled : Bool
  userHasScrolledUp : Bool
  scrollPosition : ScrollPosition
  lastScrollTop : Int
  lastStateUpdate : Nat
  isAutoScrolling : Bool
  isProcessingScroll : Bool
  scrollTimeoutPending : Bool
  scrollIntervalRunning : Bool
  frameScheduled : Bool
  pendingDebounce : Option ScrollMetrics
deriving DecidableEq, Repr

/-- Initial controller state: `useState(true)`, `useState(false)`,
`useState(SCROLL_POSITION.AT_BOTTOM)`, `useRef(0)` twice, and all handles
clear (matches `createAutoScrollState` in `src/types/autoScroll.js`). -/
def initialAutoScrollState : AutoScrollState where
  autoScrollEnabled := true
  userHasScrolledUp := false
  scrollPosition := ScrollPosition.at_bottom
  lastScrollTop := 0
  lastStateUpdate := 0
  isAutoScrolling := false
  isProcessingScroll := false
  scrollTimeoutPending := false
  scrollIntervalRunning := false
  frameScheduled := false
  pendingDebounce := none

/-- `isAtBottom` from `src/utils/scrollUtils.js`:
`scrollHeight - scrollTop - clientHeight <= threshold`. -/
def isAtBottom (scrollTop scrollHeight clientHeight : Int) : Bool :=
  scrollHeight - scrollTop - clientHeight ≤ SCROLL_THRESHOLD

/-- `getScrollPositionState` from `src/utils/scrollUtils.js`. -/
def getScrollPositionState (scrollTop scrollHeight clientHeight lastScrollTop : Int) :
    ScrollPosition :=
  if isAtBottom scrollTop scrollHeight clientHeight then
    ScrollPosition.at_bottom
  else if scrollTop < lastScrollTop then
    ScrollPosition.scrolling_down
  else
    ScrollPosition.scrolled_up

/-- `clearScrollTimeout` from `useAutoScroll`: `clearTimeout` genuinely
cancels the animation-reset timeout and the ref is nulled, but the
`clearInterval(scrollIntervalRef.current)` call is applied to a
`requestAnimationFrame` id (the only values ever stored in that ref), which
`clearInterval` cannot cancel — so the ref is nulled while any scheduled
`scrollFrame` callback stays pending (`frameScheduled` is untouched). -/
def clearScrollTimeout (st : AutoScrollState) : AutoScrollState :=
  { st with scrollTimeoutPending := false, scrollIntervalRunning := false }

/-- `throttledStateUpdate` from `useAutoScroll`: runs the updater only when
more than 8 ms have elapsed since the last applied update, recording the
application time; otherwise the update is dropped. -/
def throttledStateUpdate (now : Nat) (updater : AutoScrollState → AutoScrollState)
    (st : AutoScrollState) : AutoScrollState :=
  if now - st.lastStateUpdate > throttleWindowMs then
    { updater st with lastStateUpdate := now }
  else
    st

/-- `updateScrollPosition` from `useAutoScroll`.  `elem = none` models a null
element (early return).  The validation only rejects `scrollHeight <= 0` or
`clientHeight <= 0`; then the position is reclassified (through the throttle,
and only when it changed), the at-bottom implicit resume re-enables
auto-scroll immediately, and `lastScrollTop` is updated unconditionally. -/
def updateScrollPosition (now : Nat) (elem : Option ScrollMetrics)
    (st : AutoScrollState) : AutoScrollState :=
  match elem with
  | none => st
  | some m =>
    if m.scrollHeight ≤ 0 ∨ m.clientHeight ≤ 0 then
      st
    else
      let newScrollPosition :=
        getScrollPositionState m.scrollTop m.scrollHeight m.clientHeight st.lastScrollTop
      let st1 :=
        if newScrollPosition ≠ st.scrollPosition then
          throttledStateUpdate now
            (fun s => { s with scrollPosition := newScrollPosition }) st
        else st
      let st2 :=
        if isAtBottom m.scrollTop m.scrollHeight m.clientHeight then
          if st.userHasScrolledUp then
            { st1 with userHasScrolledUp := false, autoScrollEnabled := true }
          else st1
        else st1
      { st2 with lastScrollTop := m.scrollTop }

/-- Body of `debouncedScrollHandler` from `useAutoScroll` (the function the
debounce wrapper eventually invokes).  Re-entry is gated by
`isProcessingScroll`; the looser 10 px check cancels the frame loop and
pauses, then `updateScrollPosition` reclassifies.  The `isProcessingScroll`
flag is set for the duration of the body and cleared on the next animation
frame, so its net value is unchanged here. -/
def debouncedScrollHandler (now : Nat) (m : ScrollMetrics)
    (st : AutoScrollState) : AutoScrollState :=
  if st.isProcessingScroll then
    st
  else
    let scrollDifference := st.lastScrollTop - m.scrollTop
    let st1 :=
      if scrollDifference > debouncedScrollThreshold ∧ m.scrollTop < st.lastScrollTop then
        let stA :=
          if st.scrollIntervalRunning then
            { st with scrollIntervalRunning := false, frameScheduled := false }
          else st
        if ¬ st.userHasScrolledUp then
          { stA with userHasScrolledUp := true, autoScrollEnabled := false }
        else stA
      else st
    updateScrollPosition now (some m) st1

/-- The synchronous part of `handleScroll` from `useAutoScroll`: the
immediate manual-scroll detection (5 px threshold) that cancels the frame
loop and pauses the machine, followed by the unconditional
`lastScrollTop.current = scrollTop` update.  This runs inside the scroll
event handler itself, before the debounced handler is invoked. -/
def handleScrollSync (m : ScrollMetrics) (st : AutoScrollState) : AutoScrollState :=
  let scrollDifference := st.lastScrollTop - m.scrollTop
  let st1 :=
    if scrollDifference > immediateScrollThreshold ∧ m.scrollTop < st.lastScrollTop then
      let stA :=
        if st.scrollIntervalRunning then
          { st with scrollIntervalRunning := false, frameScheduled := false }
        else st
      if ¬ st.userHasScrolledUp then
        { stA with userHasScrolledUp := true, autoScrollEnabled := false }
      else stA
    else st
  { st1 with lastScrollTop := m.scrollTop }

/-- `handleScroll` from `useAutoScroll`: the immediate synchronous path runs
first, then `debouncedScrollHandler(event)` is called, which (per the
`debounce` wrapper in `scrollUtils.js`) cancels any previously pending
invocation and schedules this event as the sole pending one. -/
def handleScroll (m : ScrollMetrics) (st : AutoScrollState) : AutoScrollState :=
  { handleScrollSync m st with pendingDebounce := some m }

/-- The debounce timer firing: runs the pending `debouncedScrollHandler`
invocation, if any. -/
def flushDebounce (now : Nat) (st : AutoScrollState) : AutoScrollState :=
  match st.pendingDebounce with
  | none => st
  | some m => debouncedScrollHandler now m { st with pendingDebounce := none }

/-- `enableAutoScroll` from `useAutoScroll`: throttled transition to
`enabled, not scrolled up, AT_BOTTOM`; when the container is attached it
marks `isAutoScrolling`, clears pending handles, issues one "jump to bottom"
instruction (the returned `Bool`), and arms the animation-reset timeout. -/
def enableAutoScroll (now : Nat) (hasContainer : Bool) (st : AutoScrollState) :
    AutoScrollState × Bool :=
  let st1 := throttledStateUpdate now
    (fun s => { s with
        autoScrollEnabled := true
        userHasScrolledUp := false
        scrollPosition := ScrollPosition.at_bottom }) st
  if hasContainer then
    let st2 := clearScrollTimeout { st1 with isAutoScrolling := true }
    ({ st2 with scrollTimeoutPending := true }, true)
  else
    (st1, false)

/-- `disableAutoScroll` from `useAutoScroll`: throttled transition to
`disabled, scrolled up, SCROLLED_UP`. -/
def disableAutoScroll (now : Nat) (st : AutoScrollState) : AutoScrollState :=
  throttledStateUpdate now
    (fun s => { s with
        autoScrollEnabled := false
        userHasScrolledUp := true
        scrollPosition := ScrollPosition.scrolled_up }) st

/-- `resetAutoScrollState` from `useAutoScroll`: throttled transition to the
defaults, then unconditionally `lastScrollTop := 0`, clears the
`isAutoScrolling` / `isProcessingScroll` flags and both handles. -/
def resetAutoScrollState (now : Nat) (st : AutoScrollState) : AutoScrollState :=
  let st1 := throttledStateUpdate now
    (fun s => { s with
        autoScrollEnabled := true
        userHasScrolledUp := false
        scrollPosition := ScrollPosition.at_bottom }) st
  clearScrollTimeout
    { st1 with lastScrollTop := 0, isAutoScrolling := false, isProcessingScroll := false }

/-- `autoScrollToBottom` from `useAutoScroll`: refuses when auto-scroll is
disabled or the container is detached; otherwise issues one "jump to bottom"
instruction and arms the animation-reset timeout. -/
def autoScrollToBottom (hasContainer : Bool) (st : AutoScrollState) :
    AutoScrollState × Bool :=
  if ¬ st.autoScrollEnabled ∨ ¬ hasContainer then
    (st, false)
  else
    let st1 := clearScrollTimeout { st with isAutoScrolling := true }
    ({ st1 with scrollTimeoutPending := true }, true)

/-- One firing of `scrollFrame`, the loop body of `startContinuousScroll`
in `useAutoScroll`.  The invocation consumes its own pending slot
(`frameScheduled := false` on entry), then re-checks `autoScrollEnabled` and
the container, stopping itself (`cancelAnimationFrame` + nulling the ref) if
the check fails; otherwise it calls `autoScrollToBottom` and stores a fresh
`requestAnimationFrame(scrollFrame)` id in the ref, rescheduling itself. -/
def scrollFrame (hasContainer : Bool) (st : AutoScrollState) :
    AutoScrollState × Bool :=
  let st0 := { st with frameScheduled := false }
  if ¬ st.autoScrollEnabled ∨ ¬ hasContainer then
    ({ st0 with scrollIntervalRunning := false }, false)
  else
    let r := autoScrollToBottom hasContainer st0
    ({ r.1 with scrollIntervalRunning := true, frameScheduled := true }, r.2)

/-- `startContinuousScroll` from `useAutoScroll`: a no-op when the ref is
non-null, otherwise stores a fresh `requestAnimationFrame(scrollFrame)` id,
scheduling the first frame. -/
def startContinuousScroll (st : AutoScrollState) : AutoScrollState :=
  if st.scrollIntervalRunning then st
  else { st with scrollIntervalRunning := true, frameScheduled := true }

/-- `stopContinuousScroll` from `useAutoScroll`: a genuine
`cancelAnimationFrame` guarded by the ref being non-null. -/
def stopContinuousScroll (st : AutoScrollState) : AutoScrollState :=
  if st.scrollIntervalRunning then
    { st with scrollIntervalRunning := false, frameScheduled := false }
  else st

/-- Running the host's animation-frame scheduler for `n` ticks, counting how
many "jump to bottom" instructions the Continuous Scroll Driver issues.  A
`scrollFrame` callback fires exactly when one is pending with the scheduler
(`frameScheduled`) — the ref being nulled does not stop a pending frame. -/
def driverIters (hasContainer : Bool) : Nat → AutoScrollState → AutoScrollState × Nat
  | 0, st => (st, 0)
  | n + 1, st =>
    if st.frameScheduled then
      let r := scrollFrame hasContainer st
      let rest := driverIters hasContainer n r.1
      (rest.1, (if r.2 then 1 else 0) + rest.2)
    else
      (st, 0)

/-- The new-content effect of `MessageList.jsx` (the `messages`/`streaming`
effect): when new messages arrived and auto-scroll is enabled, call
`autoScrollToBottom` (which re-checks the enabled flag itself). -/
def onContentAppended (hasContainer : Bool) (st : AutoScrollState) :
    AutoScrollState × Bool :=
  if st.autoScrollEnabled then autoScrollToBottom hasContainer st
  else (st, false)

/-- The streaming-start branch of the streaming effect in `MessageList.jsx`:
`if (streamingStarted && !autoScrollEnabled) enableAutoScroll();` then
`if (streamingStarted && autoScrollEnabled) startContinuousScroll(); else
stopContinuousScroll();` — both conditions read the `autoScrollEnabled`
value captured before the effect ran. -/
def onStreamStart (now : Nat) (hasContainer : Bool) (st : AutoScrollState) :
    AutoScrollState × Bool :=
  let r :=
    if ¬ st.autoScrollEnabled then enableAutoScroll now hasContainer st
    else (st, false)
  let st2 :=
    if st.autoScrollEnabled then startContinuousScroll r.1
    else stopContinuousScroll r.1
  (st2, r.2)

/-- The state `handleScrollSync` produces on a detected immediate manual
scroll, named to keep the statements below readable: the guarded
`cancelAnimationFrame` clears the live handle, the machine pauses, and the
offset is recorded. -/
def pausedAfterSync (m : ScrollMetrics) (st : AutoScrollState) : AutoScrollState :=
  let stA :=
    if st.scrollIntervalRunning then
      { st with scrollIntervalRunning := false, frameScheduled := false }
    else st
  { stA with
      autoScrollEnabled := false
      userHasScrolledUp := true
      lastScrollTop := m.scrollTop }

/-- A FOLLOWING state mid-stream: offset history at 100 px, frame loop live
(ref non-null and a frame pending). -/
def followingState : AutoScrollState :=
  { initialAutoScrollState with
      lastScrollTop := 100
      scrollIntervalRunning := true
      frameScheduled := true }

/-- An upward flick of 20 px landing well above the bottom band. -/
def upwardFlick : ScrollMetrics where
  scrollTop := 80
  scrollHeight := 1000
  clientHeight := 150

/-- A scroll event with an 8 px upward delta: between the 5 px immediate
threshold and the 10 px debounced threshold. -/
def betweenThresholdsState : AutoScrollState :=
  { initialAutoScrollState with lastScrollTop := 8 }

/-- The event paired with `betweenThresholdsState`. -/
def betweenThresholdsEvent : ScrollMetrics where
  scrollTop := 0
  scrollHeight := 1000
  clientHeight := 150

/-- A PAUSED state with the frame loop (incorrectly) still live. -/
def pausedRunningState : AutoScrollState :=
  { initialAutoScrollState with
      autoScrollEnabled := false
      userHasScrolledUp := true
      scrollPosition := ScrollPosition.scrolled_up
      scrollIntervalRunning := true
      frameScheduled := true }

/-- A PAUSED state whose last applied throttled update happened at 100 ms,
with the frame loop live and a stale offset; calls at 104 ms fall inside the
8 ms throttle window. -/
def pausedRunningState4ms : AutoScrollState :=
  { initialAutoScrollState with
      autoScrollEnabled := false
      userHasScrolledUp := true
      scrollPosition := ScrollPosition.scrolled_up
      lastScrollTop := 500
      lastStateUpdate := 100
      scrollIntervalRunning := true
      frameScheduled := true
      scrollTimeoutPending := true }

/-- A metrics reading with positive extents violating
`contentExtent ≥ viewportExtent` (100 < 200). -/
def inconsistentMetrics : ScrollMetrics where
  scrollTop := 0
  scrollHeight := 100
  clientHeight := 200

/-- A state with a stale 7 px offset and position `SCROLLED_UP`, used to
observe that the pass on inconsistent metrics still mutates state. -/
def staleOffsetState : AutoScrollState :=
  { initialAutoScrollState with
      lastScrollTop := 7
      scrollPosition := ScrollPosition.scrolled_up }

/-- A degenerate reading with `scrollHeight = 0` (e.g. detached viewport). -/
def zeroHeightMetrics : ScrollMetrics where
  scrollTop := 0
  scrollHeight := 0
  clientHeight := 300

/-- C1: the position classifier returns `AT_BOTTOM` exactly when
`contentExtent - offset - viewportExtent ≤ 50`, independent of `lastOffset`;
otherwise `SCROLLING_DOWN` exactly when `offset < lastOffset`, and
`SCROLLED_UP` in all remaining cases. -/
theorem classify_cases (scrollTop scrollHeight clientHeight lastScrollTop : Int) :
    (getScrollPositionState scrollTop scrollHeight clientHeight lastScrollTop =
        ScrollPosition.at_bottom ↔
      scrollHeight - scrollTop - clientHeight ≤ 50) ∧
    (getScrollPositionState scrollTop scrollHeight clientHeight lastScrollTop =
        ScrollPosition.scrolling_down ↔
      ¬ (scrollHeight - scrollTop - clientHeight ≤ 50) ∧ scrollTop < lastScrollTop) ∧
    (getScrollPositionState scrollTop scrollHeight clientHeight lastScrollTop =
        ScrollPosition.scrolled_up ↔
      ¬ (scrollHeight - scrollTop - clientHeight ≤ 50) ∧ ¬ scrollTop < lastScrollTop) := by
  unfold getScrollPositionState isAtBottom SCROLL_THRESHOLD
  by_cases hb : scrollHeight - scrollTop - clientHeight ≤ 50 <;>
    by_cases hd : scrollTop < lastScrollTop <;>
      simp [hb, hd]

/-- The throttled position-only updater used by `updateScrollPosition` never
touches the enabled / navigated-away flags, the frame handle or
`lastScrollTop`. -/
theorem throttledStateUpdate_position_fields (now : Nat) (p : ScrollPosition)
    (st : AutoScrollState) :
    (throttledStateUpdate now (fun s => { s with scrollPosition := p }) st).autoScrollEnabled
        = st.autoScrollEnabled ∧
    (throttledStateUpdate now (fun s => { s with scrollPosition := p }) st).userHasScrolledUp
        = st.userHasScrolledUp ∧
    (throttledStateUpdate now (fun s => { s with scrollPosition := p }) st).scrollIntervalRunning
        = st.scrollIntervalRunning ∧
    (throttledStateUpdate now (fun s => { s with scrollPosition := p }) st).lastScrollTop
        = st.lastScrollTop := by
  unfold throttledStateUpdate
  split <;> simp

/-- `updateScrollPosition` never touches the frame-loop handle. -/
theorem updateScrollPosition_interval (now : Nat) (elem : Option ScrollMetrics)
    (st : AutoScrollState) :
    (updateScrollPosition now elem st).scrollIntervalRunning = st.scrollIntervalRunning := by
  unfold updateScrollPosition
  cases elem with
  | none => rfl
  | some m =>
    simp only
    split
    · rfl
    · split_ifs <;> simp [throttledStateUpdate_position_fields]

/-- When the event is not within the at-bottom band, `updateScrollPosition`
leaves the enabled and navigated-away flags unchanged. -/
theorem updateScrollPosition_flags_of_not_atBottom (now : Nat) (m : ScrollMetrics)
    (st : AutoScrollState)
    (h : ¬ m.scrollHeight - m.scrollTop - m.clientHeight ≤ 50) :
    (updateScrollPosition now (some m) st).autoScrollEnabled = st.autoScrollEnabled ∧
    (updateScrollPosition now (some m) st).userHasScrolledUp = st.userHasScrolledUp := by
  unfold updateScrollPosition
  have hb : isAtBottom m.scrollTop m.scrollHeight m.clientHeight = false := by
    unfold isAtBottom SCROLL_THRESHOLD
    simpa using h
  simp only [hb, Bool.false_eq_true, if_false]
  split_ifs <;> simp [throttledStateUpdate_position_fields]

/-- `updateScrollPosition` can only enable auto-scroll, never disable it. -/
theorem updateScrollPosition_enabled_monotone (now : Nat) (elem : Option ScrollMetrics)
    (st : AutoScrollState) :
    (updateScrollPosition now elem st).autoScrollEnabled = st.autoScrollEnabled ∨
    (updateScrollPosition now elem st).autoScrollEnabled = true := by
  unfold updateScrollPosition
  cases elem with
  | none => left; rfl
  | some m =>
    simp only
    split
    · left; rfl
    · split_ifs <;> simp [throttledStateUpdate_position_fields]

/-- On an upward delta above the immediate threshold, with the machine
FOLLOWING, the synchronous path of `handleScroll` pauses the machine and
cancels the frame loop. -/
theorem handleScrollSync_detects (st : AutoScrollState) (m : ScrollMetrics)
    (hnav : st.userHasScrolledUp = false)
    (hdelta : st.lastScrollTop - m.scrollTop > immediateScrollThreshold)
    (hup : m.scrollTop < st.lastScrollTop) :
    handleScrollSync m st = pausedAfterSync m st := by
  unfold handleScrollSync pausedAfterSync
  simp [hdelta, hup, hnav]

/-- Field values of the post-detection state: PAUSED, frame handle clear,
offset recorded; `pendingDebounce` is carried over unchanged. -/
theorem pausedAfterSync_fields (m : ScrollMetrics) (st : AutoScrollState) :
    (pausedAfterSync m st).autoScrollEnabled = false ∧
    (pausedAfterSync m st).userHasScrolledUp = true ∧
    (pausedAfterSync m st).scrollIntervalRunning = false ∧
    (pausedAfterSync m st).lastScrollTop = m.scrollTop := by
  unfold pausedAfterSync
  by_cases h : st.scrollIntervalRunning <;> simp [h]

/-- When an event's offset already equals the stored `lastScrollTop`, the
debounced handler's manual-scroll branch cannot fire (its delta is zero) and
the body reduces to the classification pass. -/
theorem debouncedScrollHandler_no_delta (now : Nat) (m : ScrollMetrics)
    (st : AutoScrollState) (h : st.lastScrollTop = m.scrollTop) :
    debouncedScrollHandler now m st =
      if st.isProcessingScroll then st else updateScrollPosition now (some m) st := by
  unfold debouncedScrollHandler
  have hnd : ¬ (st.lastScrollTop - m.scrollTop > debouncedScrollThreshold ∧
      m.scrollTop < st.lastScrollTop) := by
    rw [h]
    intro hc
    exact absurd hc.2 (lt_irrefl _)
  simp [hnd]

/-- C2: a scroll event whose upward delta exceeds the immediate manual-scroll
threshold, taken while FOLLOWING and not within the at-bottom band,
transitions the machine to PAUSED (`enabled = false`,
`userNavigatedAway = true`) and cancels the Continuous Scroll Driver frame
loop already in the synchronous part of `handleScroll` (before any debounced
work), and the subsequent debounced pass for the event leaves it PAUSED, so
the transition happens exactly once per event. -/
theorem immediate_manual_scroll_pauses (st : AutoScrollState) (m : ScrollMetrics) (now : Nat)
    (hen : st.autoScrollEnabled = true) (hnav : st.userHasScrolledUp = false)
    (hdelta : st.lastScrollTop - m.scrollTop > immediateScrollThreshold)
    (hup : m.scrollTop < st.lastScrollTop)
    (hnb : ¬ m.scrollHeight - m.scrollTop - m.clientHeight ≤ 50) :
    (handleScrollSync m st).autoScrollEnabled = false ∧
    (handleScrollSync m st).userHasScrolledUp = true ∧
    (handleScrollSync m st).scrollIntervalRunning = false ∧
    (flushDebounce now (handleScroll m st)).autoScrollEnabled = false ∧
    (flushDebounce now (handleScroll m st)).userHasScrolledUp = true ∧
    (flushDebounce now (handleScroll m st)).scrollIntervalRunning = false := by
  have hsync := handleScrollSync_detects st m hnav hdelta hup
  have hfld := pausedAfterSync_fields m st
  have hflush : flushDebounce now (handleScroll m st) = debouncedScrollHandler now m
      { pausedAfterSync m st with pendingDebounce := none } := by
    unfold handleScroll flushDebounce
    rw [hsync]
  have hYen : ({ pausedAfterSync m st with
      pendingDebounce := none } : AutoScrollState).autoScrollEnabled = false := hfld.1
  have hYnav : ({ pausedAfterSync m st with
      pendingDebounce := none } : AutoScrollState).userHasScrolledUp = true := hfld.2.1
  have hYint : ({ pausedAfterSync m st with
      pendingDebounce := none } : AutoScrollState).scrollIntervalRunning
      = false := hfld.2.2.1
  have hYtop : ({ pausedAfterSync m st with
      pendingDebounce := none } : AutoScrollState).lastScrollTop
      = m.scrollTop := hfld.2.2.2
  refine ⟨by rw [hsync]; exact hfld.1, by rw [hsync]; exact hfld.2.1,
    by rw [hsync]; exact hfld.2.2.1, ?_⟩
  rw [hflush, debouncedScrollHandler_no_delta now m _ hYtop]
  by_cases hp : ({ pausedAfterSync m st with
      pendingDebounce := none } : AutoScrollState).isProcessingScroll
  · rw [if_pos hp]
    exact ⟨hYen, hYnav, hYint⟩
  · rw [if_neg hp]
    have h1 := updateScrollPosition_flags_of_not_atBottom now m
      { pausedAfterSync m st with pendingDebounce := none } hnb
    have h2 := updateScrollPosition_interval now (some m)
      { pausedAfterSync m st with pendingDebounce := none }
    exact ⟨h1.1.trans hYen, h1.2.trans hYnav, h2.trans hYint⟩

/-- Witness for C2 at a concrete 20 px upward flick. -/
theorem immediate_manual_scroll_pauses_witness :
    (handleScrollSync upwardFlick followingState).autoScrollEnabled = false ∧
    (handleScrollSync upwardFlick followingState).userHasScrolledUp = true ∧
    (handleScrollSync upwardFlick followingState).scrollIntervalRunning = false ∧
    (flushDebounce 0 (handleScroll upwardFlick followingState)).autoScrollEnabled = false ∧
    (flushDebounce 0 (handleScroll upwardFlick followingState)).userHasScrolledUp = true ∧
    (flushDebounce 0 (handleScroll upwardFlick followingState)).scrollIntervalRunning = false :=
  immediate_manual_scroll_pauses followingState upwardFlick 0 rfl rfl
    (by decide) (by decide) (by decide)

/-- C3: the immediate detection path and the debounced classification pass
use two distinct thresholds (5 px immediate, 10 px debounced, the immediate
one tighter); `handleScroll` applies the immediate path first and only then
(re)schedules the debounced pass, replacing any already-pending debounce
window; and on a delta strictly between the two thresholds the immediate
path pauses the machine while the debounced pass alone would not. -/
theorem detection_thresholds_and_ordering :
    immediateScrollThreshold = 5 ∧ debouncedScrollThreshold = 10 ∧
    immediateScrollThreshold < debouncedScrollThreshold ∧
    (∀ (st : AutoScrollState) (m : ScrollMetrics) (p : Option ScrollMetrics),
      handleScroll m { st with pendingDebounce := p } =
        { handleScrollSync m st with pendingDebounce := some m }) ∧
    (∀ (st : AutoScrollState) (m : ScrollMetrics) (now : Nat),
      st.userHasScrolledUp = false → st.isProcessingScroll = false →
      immediateScrollThreshold < st.lastScrollTop - m.scrollTop →
      st.lastScrollTop - m.scrollTop ≤ debouncedScrollThreshold →
      ¬ m.scrollHeight - m.scrollTop - m.clientHeight ≤ 50 →
      (handleScrollSync m st).autoScrollEnabled = false ∧
      (debouncedScrollHandler now m st).autoScrollEnabled = st.autoScrollEnabled ∧
      (debouncedScrollHandler now m st).userHasScrolledUp = false) := by
  refine ⟨rfl, rfl, by decide, ?_, ?_⟩
  · intro st m p
    rcases st with ⟨a, b, c, d, e, f, g, h, i, j⟩
    simp only [handleScroll, handleScrollSync]
    split_ifs <;> rfl
  · intro st m now hnav hproc hlo hhi hnb
    have hup : m.scrollTop < st.lastScrollTop := by
      have : (0 : Int) < st.lastScrollTop - m.scrollTop := by
        have h5 : (0 : Int) < immediateScrollThreshold := by decide
        exact lt_trans h5 hlo
      omega
    constructor
    · rw [handleScrollSync_detects st m hnav hlo hup]
      rfl
    · unfold debouncedScrollHandler
      have hnd : ¬ (st.lastScrollTop - m.scrollTop > debouncedScrollThreshold ∧
          m.scrollTop < st.lastScrollTop) := by
        intro h
        exact absurd h.1 (not_lt.mpr hhi)
      have h1 := updateScrollPosition_flags_of_not_atBottom now m st hnb
      simp [hproc, hnd, h1.1, h1.2, hnav]

/-- Witness for C3: at an 8 px delta the immediate path pauses while the
debounced pass alone leaves the enabled flag untouched. -/
theorem detection_thresholds_and_ordering_witness :
    (handleScrollSync betweenThresholdsEvent betweenThresholdsState).autoScrollEnabled = false ∧
    (debouncedScrollHandler 0 betweenThresholdsEvent betweenThresholdsState).autoScrollEnabled
        = betweenThresholdsState.autoScrollEnabled ∧
    (debouncedScrollHandler 0 betweenThresholdsEvent betweenThresholdsState).userHasScrolledUp
        = false :=
  detection_thresholds_and_ordering.2.2.2.2 betweenThresholdsState betweenThresholdsEvent 0
    rfl rfl (by decide) (by decide) (by decide)

/-- When no `scrollFrame` callback is pending with the scheduler, the driver
loop never runs and issues nothing. -/
theorem driverIters_not_scheduled (hc : Bool) (n : Nat) (st : AutoScrollState)
    (h : st.frameScheduled = false) :
    driverIters hc n st = (st, 0) := by
  cases n with
  | zero => rfl
  | succ k => unfold driverIters; simp [h]

/-- While auto-scroll is disabled the driver loop issues no instruction in
any number of iterations: an already-pending frame fires, re-checks the
enabled flag, stops itself and does not reschedule. -/
theorem driverIters_disabled (hc : Bool) (n : Nat) (st : AutoScrollState)
    (h : st.autoScrollEnabled = false) :
    (driverIters hc n st).2 = 0 := by
  cases n with
  | zero => rfl
  | succ k =>
    unfold driverIters
    by_cases hr : st.frameScheduled
    · have hframe : scrollFrame hc st =
          ({ st with frameScheduled := false, scrollIntervalRunning := false }, false) := by
        unfold scrollFrame
        simp [h]
      rw [if_pos hr, hframe]
      simp [driverIters_not_scheduled]
    · simp [hr]

/-- C5: while PAUSED (`enabled = false`), no scroll-to-bottom instruction is
issued — not by `autoScrollToBottom`, not by the content-appended path of
`MessageList`, and not by any iteration of the Continuous Scroll Driver,
whose frame body re-checks the enabled flag and stops itself. -/
theorem paused_never_scrolls (st : AutoScrollState) (hc : Bool) (n : Nat)
    (h : st.autoScrollEnabled = false) :
    (autoScrollToBottom hc st).2 = false ∧
    (autoScrollToBottom hc st).1 = st ∧
    (onContentAppended hc st).2 = false ∧
    (onContentAppended hc st).1 = st ∧
    (scrollFrame hc st).2 = false ∧
    (scrollFrame hc st).1.scrollIntervalRunning = false ∧
    (driverIters hc n st).2 = 0 := by
  have hb : autoScrollToBottom hc st = (st, false) := by
    unfold autoScrollToBottom
    simp [h]
  have hca : onContentAppended hc st = (st, false) := by
    unfold onContentAppended
    simp [h]
  have hf : scrollFrame hc st =
      ({ st with frameScheduled := false, scrollIntervalRunning := false }, false) := by
    unfold scrollFrame
    simp [h]
  exact ⟨by rw [hb], by rw [hb], by rw [hca], by rw [hca], by rw [hf],
    by rw [hf], driverIters_disabled hc n st h⟩

/-- Witness for C5 at a concrete PAUSED state, ten driver iterations. -/
theorem paused_never_scrolls_witness :
    (autoScrollToBottom true pausedRunningState).2 = false ∧
    (autoScrollToBottom true pausedRunningState).1 = pausedRunningState ∧
    (onContentAppended true pausedRunningState).2 = false ∧
    (onContentAppended true pausedRunningState).1 = pausedRunningState ∧
    (scrollFrame true pausedRunningState).2 = false ∧
    (scrollFrame true pausedRunningState).1.scrollIntervalRunning = false ∧
    (driverIters true 10 pausedRunningState).2 = 0 :=
  paused_never_scrolls pausedRunningState true 10 rfl

/-- C9: `enable()`, `disable()` and `reset()` apply their transition of the
`enabled` / `userNavigatedAway` / `position` fields through the 8 ms
throttle: a call within 8 ms of the most recently applied throttled update
leaves those three fields at their prior values, while `reset()` still
clears `lastOffset` and cancels the frame loop and timeout unconditionally. -/
theorem throttled_transitions_dropped (st : AutoScrollState) (now : Nat) (hc : Bool)
    (h : now - st.lastStateUpdate ≤ throttleWindowMs) :
    (enableAutoScroll now hc st).1.autoScrollEnabled = st.autoScrollEnabled ∧
    (enableAutoScroll now hc st).1.userHasScrolledUp = st.userHasScrolledUp ∧
    (enableAutoScroll now hc st).1.scrollPosition = st.scrollPosition ∧
    (disableAutoScroll now st).autoScrollEnabled = st.autoScrollEnabled ∧
    (disableAutoScroll now st).userHasScrolledUp = st.userHasScrolledUp ∧
    (disableAutoScroll now st).scrollPosition = st.scrollPosition ∧
    (resetAutoScrollState now st).autoScrollEnabled = st.autoScrollEnabled ∧
    (resetAutoScrollState now st).userHasScrolledUp = st.userHasScrolledUp ∧
    (resetAutoScrollState now st).scrollPosition = st.scrollPosition ∧
    (resetAutoScrollState now st).lastScrollTop = 0 ∧
    (resetAutoScrollState now st).scrollIntervalRunning = false ∧
    (resetAutoScrollState now st).scrollTimeoutPending = false := by
  have hdrop : ¬ now - st.lastStateUpdate > throttleWindowMs := not_lt.mpr h
  unfold enableAutoScroll disableAutoScroll resetAutoScrollState
    throttledStateUpdate clearScrollTimeout
  by_cases hcc : hc <;> simp [hdrop, hcc]

/-- Witness for C9: a PAUSED state whose last applied update was 4 ms ago
keeps all three fields through enable/disable/reset, while reset still
clears `lastScrollTop` and the handles. -/
theorem throttled_transitions_dropped_witness :
    (enableAutoScroll 104 true pausedRunningState4ms).1.autoScrollEnabled = false ∧
    (enableAutoScroll 104 true pausedRunningState4ms).1.scrollPosition
        = ScrollPosition.scrolled_up ∧
    (resetAutoScrollState 104 pausedRunningState4ms).autoScrollEnabled = false ∧
    (resetAutoScrollState 104 pausedRunningState4ms).lastScrollTop = 0 ∧
    (resetAutoScrollState 104 pausedRunningState4ms).scrollIntervalRunning = false := by
  have h := throttled_transitions_dropped pausedRunningState4ms 104 true (by decide)
  exact ⟨by rw [h.1]; rfl, by rw [h.2.2.1]; rfl, by rw [h.2.2.2.2.2.2.1]; rfl,
    h.2.2.2.2.2.2.2.2.2.1, h.2.2.2.2.2.2.2.2.2.2.1⟩

/-- C10: `handleScroll` unconditionally writes the event's offset into
`lastScrollTop` in its synchronous part, before the debounced pass is
scheduled; therefore the debounced pass for the same event computes a zero
delta against the already-updated `lastScrollTop` and can never itself
disable auto-scroll — if auto-scroll is disabled after the flush, the
synchronous path had already disabled it. -/
theorem handleScroll_updates_lastOffset (st : AutoScrollState) (m : ScrollMetrics) (now : Nat) :
    (handleScrollSync m st).lastScrollTop = m.scrollTop ∧
    (handleScroll m st).lastScrollTop = m.scrollTop ∧
    (handleScroll m st).pendingDebounce = some m ∧
    ((flushDebounce now (handleScroll m st)).autoScrollEnabled = false →
      (handleScrollSync m st).autoScrollEnabled = false) := by
  refine ⟨rfl, rfl, rfl, ?_⟩
  intro h
  have hflush : flushDebounce now (handleScroll m st) = debouncedScrollHandler now m
      { handleScrollSync m st with pendingDebounce := none } := rfl
  have hY : ({ handleScrollSync m st with
      pendingDebounce := none } : AutoScrollState).lastScrollTop = m.scrollTop := rfl
  rw [hflush, debouncedScrollHandler_no_delta now m _ hY] at h
  by_cases hp : ({ handleScrollSync m st with
      pendingDebounce := none } : AutoScrollState).isProcessingScroll
  · rw [if_pos hp] at h
    exact h
  · rw [if_neg hp] at h
    rcases updateScrollPosition_enabled_monotone now (some m)
        { handleScrollSync m st with pendingDebounce := none } with he | he
    · exact he.symm.trans h
    · rw [he] at h
      exact absurd h (by simp)

/-- Witness for C10 at the concrete 20 px flick: `lastScrollTop` takes the
event's offset, and the pause observed after the flush was already present
synchronously. -/
theorem handleScroll_updates_lastOffset_witness :
    (handleScrollSync upwardFlick followingState).lastScrollTop = upwardFlick.scrollTop ∧
    (flushDebounce 0 (handleScroll upwardFlick followingState)).autoScrollEnabled = false ∧
    (handleScrollSync upwardFlick followingState).autoScrollEnabled = false := by
  have h := handleScroll_updates_lastOffset followingState upwardFlick 0
  have hf : (flushDebounce 0 (handleScroll upwardFlick followingState)).autoScrollEnabled
      = false := by decide
  exact ⟨h.1, hf, h.2.2.2 hf⟩

/-- C4 counterexample: the claim fails twice over.  A `reset()` 4 ms after
the last applied throttled update does NOT yield `{enabled:true,
userNavigatedAway:false, position:AT_BOTTOM}` — the throttle silently drops
the field transition and the machine stays PAUSED.  And `reset()` does not
stop the Continuous Scroll Driver: `clearScrollTimeout` applies
`clearInterval` to a `requestAnimationFrame` id, which cannot cancel it, so
even after an unthrottled reset (200 ms) the surviving frame fires on the
next scheduler tick and issues a further scroll-to instruction. -/
theorem reset_not_following_when_throttled_cex :
    (resetAutoScrollState 104 pausedRunningState4ms).autoScrollEnabled = false ∧
    (resetAutoScrollState 104 pausedRunningState4ms).userHasScrolledUp = true ∧
    (resetAutoScrollState 104 pausedRunningState4ms).scrollPosition
        = ScrollPosition.scrolled_up ∧
    (driverIters true 1 (resetAutoScrollState 200 pausedRunningState4ms)).2 = 1 := by
  decide

/-- C4 amended: `reset()` unconditionally clears `lastScrollTop` to 0, nulls
the frame-loop ref, cancels the animation timeout and the in-flight flags,
and is idempotent; the transition of `(enabled, userNavigatedAway,
position)` to `(true, false, AT_BOTTOM)` goes through the 8 ms throttle and
applies only when more than 8 ms have elapsed since the last applied update.
However, because `clearScrollTimeout` uses `clearInterval` on a
`requestAnimationFrame` id, a driver frame already scheduled when `reset()`
runs is NOT cancelled: it survives the reset, and when it fires (post-reset
state FOLLOWING, container attached) it issues a scroll-to-bottom
instruction and re-registers the loop. -/
theorem reset_clears_and_transitions (st : AutoScrollState) (now : Nat) :
    (resetAutoScrollState now st).lastScrollTop = 0 ∧
    (resetAutoScrollState now st).scrollIntervalRunning = false ∧
    (resetAutoScrollState now st).scrollTimeoutPending = false ∧
    (resetAutoScrollState now st).isAutoScrolling = false ∧
    (resetAutoScrollState now st).frameScheduled = st.frameScheduled ∧
    (now - st.lastStateUpdate > throttleWindowMs →
      (resetAutoScrollState now st).autoScrollEnabled = true ∧
      (resetAutoScrollState now st).userHasScrolledUp = false ∧
      (resetAutoScrollState now st).scrollPosition = ScrollPosition.at_bottom) ∧
    resetAutoScrollState now (resetAutoScrollState now st) = resetAutoScrollState now st ∧
    (now - st.lastStateUpdate > throttleWindowMs → st.frameScheduled = true →
      (scrollFrame true (resetAutoScrollState now st)).2 = true ∧
      (scrollFrame true (resetAutoScrollState now st)).1.scrollIntervalRunning = true ∧
      (scrollFrame true (resetAutoScrollState now st)).1.frameScheduled = true) := by
  have h0 : ∀ k : Nat, ¬ (k - k > throttleWindowMs) := by
    intro k
    unfold throttleWindowMs
    omega
  have hR : ∀ h : now - st.lastStateUpdate > throttleWindowMs,
      resetAutoScrollState now st =
        { autoScrollEnabled := true
          userHasScrolledUp := false
          scrollPosition := ScrollPosition.at_bottom
          lastScrollTop := 0
          lastStateUpdate := now
          isAutoScrolling := false
          isProcessingScroll := false
          scrollTimeoutPending := false
          scrollIntervalRunning := false
          frameScheduled := st.frameScheduled
          pendingDebounce := st.pendingDebounce } := by
    intro h
    unfold resetAutoScrollState throttledStateUpdate clearScrollTimeout
    simp [h]
  refine ⟨rfl, rfl, rfl, rfl, ?_, ?_, ?_, ?_⟩
  · unfold resetAutoScrollState throttledStateUpdate clearScrollTimeout
    split <;> rfl
  · intro h
    rw [hR h]
    exact ⟨rfl, rfl, rfl⟩
  · unfold resetAutoScrollState throttledStateUpdate clearScrollTimeout
    by_cases h : now - st.lastStateUpdate > throttleWindowMs <;> simp [h, h0]
  · intro h hfs
    rw [hR h]
    unfold scrollFrame autoScrollToBottom clearScrollTimeout
    simp

/-- Witness for the amended C4: a reset at 200 ms (outside the throttle
window) restores FOLLOWING from the concrete PAUSED state, nulls the ref —
yet the scheduled frame survives and its next firing issues a scroll-to
instruction. -/
theorem reset_clears_and_transitions_witness :
    (resetAutoScrollState 200 pausedRunningState4ms).lastScrollTop = 0 ∧
    (resetAutoScrollState 200 pausedRunningState4ms).scrollIntervalRunning = false ∧
    (resetAutoScrollState 200 pausedRunningState4ms).autoScrollEnabled = true ∧
    (resetAutoScrollState 200 pausedRunningState4ms).scrollPosition
        = ScrollPosition.at_bottom ∧
    (resetAutoScrollState 200 pausedRunningState4ms).frameScheduled = true ∧
    (scrollFrame true (resetAutoScrollState 200 pausedRunningState4ms)).2 = true := by
  have h := reset_clears_and_transitions pausedRunningState4ms 200
  have ht := h.2.2.2.2.2.1 (by decide)
  have hs := h.2.2.2.2.2.2.2 (by decide) (by decide)
  exact ⟨h.1, h.2.1, ht.1, ht.2.2,
    (h.2.2.2.2.1).trans (by decide), hs.1⟩

/-- C6 counterexample: streaming starts while the machine is PAUSED because
the user navigated away — the integration shell DOES call `enable()` and
forces the transition back to FOLLOWING (at 200 ms, outside the throttle
window), contradicting the claim that it does not. -/
theorem stream_start_forces_enable_cex :
    pausedRunningState4ms.autoScrollEnabled = false ∧
    pausedRunningState4ms.userHasScrolledUp = true ∧
    (onStreamStart 200 true pausedRunningState4ms).1.autoScrollEnabled = true ∧
    (onStreamStart 200 true pausedRunningState4ms).1.userHasScrolledUp = false ∧
    (onStreamStart 200 true pausedRunningState4ms).2 = true := by decide

/-- C6 amended: on stream start, `enable()` is invoked exactly when
auto-scroll is currently disabled — in particular also when the controller
was PAUSED by the user's upward navigation, forcing it back to FOLLOWING
(throttle permitting); when already FOLLOWING, `enable()` is not invoked and
no jump instruction is issued by this path; when `enable()` runs outside the
throttle window it yields FOLLOWING with position AT_BOTTOM and issues one
immediate jump-to-bottom instruction exactly when the container is attached. -/
theorem stream_start_enable_exactly_when_disabled (st : AutoScrollState) (now : Nat)
    (hc : Bool) :
    (st.autoScrollEnabled = true →
      (onStreamStart now hc st).1.autoScrollEnabled = true ∧
      (onStreamStart now hc st).1.userHasScrolledUp = st.userHasScrolledUp ∧
      (onStreamStart now hc st).1.scrollPosition = st.scrollPosition ∧
      (onStreamStart now hc st).2 = false) ∧
    (st.autoScrollEnabled = false → now - st.lastStateUpdate > throttleWindowMs →
      (onStreamStart now hc st).1.autoScrollEnabled = true ∧
      (onStreamStart now hc st).1.userHasScrolledUp = false ∧
      (onStreamStart now hc st).1.scrollPosition = ScrollPosition.at_bottom ∧
      (onStreamStart now hc st).2 = hc) := by
  constructor
  · intro h
    unfold onStreamStart startContinuousScroll
    by_cases hr : st.scrollIntervalRunning <;> simp [h, hr]
  · intro h ht
    unfold onStreamStart enableAutoScroll stopContinuousScroll
      throttledStateUpdate clearScrollTimeout
    by_cases hcc : hc <;> by_cases hr : st.scrollIntervalRunning <;>
      simp [h, ht, hcc, hr]

/-- Witness for the amended C6 at the concrete PAUSED state, 200 ms. -/
theorem stream_start_enable_witness :
    (onStreamStart 200 true pausedRunningState4ms).1.autoScrollEnabled = true ∧
    (onStreamStart 200 true pausedRunningState4ms).1.userHasScrolledUp = false ∧
    (onStreamStart 200 true pausedRunningState4ms).1.scrollPosition
        = ScrollPosition.at_bottom ∧
    (onStreamStart 200 true pausedRunningState4ms).2 = true :=
  (stream_start_enable_exactly_when_disabled pausedRunningState4ms 200 true).2
    (by decide) (by decide)

/-- C7 counterexample: calling `enable()` twice at 104 ms on a PAUSED state
whose last applied update was at 100 ms leaves the machine PAUSED with
position `SCROLLED_UP` — not `FOLLOWING, AT_BOTTOM` as the claim promises for
every starting state: the throttle drops both updates. -/
theorem enable_twice_throttled_cex :
    (enableAutoScroll 104 true (enableAutoScroll 104 true pausedRunningState4ms).1).1.autoScrollEnabled
        = false ∧
    (enableAutoScroll 104 true (enableAutoScroll 104 true pausedRunningState4ms).1).1.scrollPosition
        = ScrollPosition.scrolled_up := by decide

/-- C7 amended: calling `enable()` twice in immediate succession (same
timestamp) leaves the whole `AutoScrollState` identical to calling it once;
the once-called result is FOLLOWING with position AT_BOTTOM provided the
call falls outside the 8 ms throttle window of the last applied update
(otherwise the throttle keeps the prior field values). -/
theorem enable_idempotent_throttle_aware (st : AutoScrollState) (now : Nat) (hc : Bool) :
    (enableAutoScroll now hc (enableAutoScroll now hc st).1).1
        = (enableAutoScroll now hc st).1 ∧
    (now - st.lastStateUpdate > throttleWindowMs →
      (enableAutoScroll now hc st).1.autoScrollEnabled = true ∧
      (enableAutoScroll now hc st).1.userHasScrolledUp = false ∧
      (enableAutoScroll now hc st).1.scrollPosition = ScrollPosition.at_bottom) := by
  have h0 : ∀ k : Nat, ¬ (k - k > throttleWindowMs) := by
    intro k
    unfold throttleWindowMs
    omega
  constructor
  · unfold enableAutoScroll throttledStateUpdate clearScrollTimeout
    by_cases h : now - st.lastStateUpdate > throttleWindowMs <;>
      by_cases hcc : hc <;> simp [h, hcc, h0]
  · intro ht
    unfold enableAutoScroll throttledStateUpdate clearScrollTimeout
    by_cases hcc : hc <;> simp [ht, hcc]

/-- Witness for the amended C7 at the concrete PAUSED state, 200 ms. -/
theorem enable_idempotent_witness :
    (enableAutoScroll 200 true (enableAutoScroll 200 true pausedRunningState4ms).1).1
        = (enableAutoScroll 200 true pausedRunningState4ms).1 ∧
    (enableAutoScroll 200 true pausedRunningState4ms).1.autoScrollEnabled = true ∧
    (enableAutoScroll 200 true pausedRunningState4ms).1.scrollPosition
        = ScrollPosition.at_bottom := by
  have h := enable_idempotent_throttle_aware pausedRunningState4ms 200 true
  have ht := h.2 (by decide)
  exact ⟨h.1, ht.1, ht.2.2⟩

/-- C8 counterexample: a reading with `contentExtent < viewportExtent` (both
positive) violates the claimed invariant, yet the classification pass is NOT
skipped: it overwrites `lastScrollTop` and reclassifies the position. -/
theorem inconsistent_metrics_processed_cex :
    inconsistentMetrics.scrollHeight < inconsistentMetrics.clientHeight ∧
    updateScrollPosition 1000 (some inconsistentMetrics) staleOffsetState
        ≠ staleOffsetState ∧
    (updateScrollPosition 1000 (some inconsistentMetrics) staleOffsetState).lastScrollTop
        = 0 ∧
    (updateScrollPosition 1000 (some inconsistentMetrics) staleOffsetState).scrollPosition
        = ScrollPosition.at_bottom := by decide

/-- C8 amended: the classification pass is skipped with the state left fully
unchanged exactly for the readings the code rejects, namely
`contentExtent ≤ 0` or `viewportExtent ≤ 0`; a reading with positive extents
but `contentExtent < viewportExtent` is not rejected and is processed (as
at-bottom). -/
theorem invalid_metrics_skip (now : Nat) (m : ScrollMetrics) (st : AutoScrollState)
    (h : m.scrollHeight ≤ 0 ∨ m.clientHeight ≤ 0) :
    updateScrollPosition now (some m) st = st := by
  unfold updateScrollPosition
  simp [h]

/-- Witness for the amended C8: a zero-height reading leaves the initial
state untouched. -/
theorem invalid_metrics_skip_witness :
    updateScrollPosition 0 (some zeroHeightMetrics) initialAutoScrollState
        = initialAutoScrollState :=
  invalid_metrics_skip 0 zeroHeightMetrics initialAutoScrollState (by decide)
